import Mathlib

/-!
Verification of the chat session and streaming protocol engine of the
local-ai-bridge repository: the generation driver (`src/llm.ts`), the
transport sinks (`src/transport/sse.ts`, `src/transport/websocket.ts`),
the session registry and chat routes (`src/routes/chat.ts`), the bridge
event hub and the loopback gate (`src/server.ts`).

The TypeScript source is shallowly embedded: each handler becomes a pure
Lean function from an explicit server state to a result, asynchronous
scheduling is represented by an ordered list of primitive effects, and
the upstream provider is represented by the list of fragments it yields
together with how its fragment sequence ends (normal exhaustion or a
thrown error).
-/

namespace LocalAiBridge

/-- The three wire shapes of a `StreamChunk`:
`\x7bdelta, done:false\x7d`, `\x7bdelta:"", done:true\x7d`,
`\x7berror, done:true\x7d`. -/
inductive StreamChunk where
  | data (delta : String)
  | done
  | error (msg : String)
deriving DecidableEq, Repr

/-- A chunk is terminal exactly when its `done` field is `true`. -/
def StreamChunk.isTerminal : StreamChunk → Bool
  | .data _ => false
  | .done => true
  | .error _ => true

/-- How the provider's fragment sequence ends: normal exhaustion of the
async iterator, or a thrown error (this also covers `resolveModel` /
`sendRequest` failing before any fragment, with an empty fragment list). -/
inductive ProviderEnd where
  | normal
  | fail (msg : String)
deriving DecidableEq, Repr

/-- One run of the upstream provider: the fragments its async iterable
yields, in order, and how the sequence ends. -/
structure ProviderRun where
  fragments : List String
  ending : ProviderEnd
deriving DecidableEq, Repr

/-- A call the driver makes on its `StreamTransport`. -/
inductive TransportAction where
  | send (chunk : StreamChunk)
  | close
deriving DecidableEq, Repr

/-- The `for await` loop of `streamPromptToTransport` together with the
`catch` block (src/llm.ts lines 142-169).  `cancelled i` is the value
`token.isCancellationRequested` returns at the i-th observation of the
token: observation `i` happens right after the i-th fragment has been
pulled, and — when the sequence ends by throwing — one final observation
happens inside the `catch` block, at index `fragments.length`.

* pulling fragment `f` then seeing cancellation emits `\x7bdelta:"",
  done:true\x7d` and returns;
* otherwise the fragment is forwarded as `\x7bdelta:f, done:false\x7d`;
* normal exhaustion emits `\x7bdelta:"", done:true\x7d`;
* a throw emits `\x7bdelta:"", done:true\x7d` when cancellation is
  observed in the catch block, else `\x7berror:msg, done:true\x7d`. -/
def driverLoop (cancelled : Nat → Bool) :
    List String → Nat → ProviderEnd → List TransportAction
  | [], _, .normal => [.send .done]
  | [], i, .fail msg =>
      if cancelled i then [.send .done] else [.send (.error msg)]
  | f :: rest, i, ending =>
      if cancelled i then [.send .done]
      else .send (.data f) :: driverLoop cancelled rest (i + 1) ending

/-- `streamPromptToTransport` (src/llm.ts lines 135-170), as the list of
transport calls it performs for one provider run under one cancellation
observation sequence. -/
def streamPromptToTransport (run : ProviderRun) (cancelled : Nat → Bool) :
    List TransportAction :=
  driverLoop cancelled run.fragments 0 run.ending

/-- State of the `SseTransport` of src/transport/sse.ts: the private
`closed` flag, the underlying response's `writableEnded` flag, and the
raw frames written so far to the response. -/
structure SseTransport where
  closed : Bool
  writableEnded : Bool
  written : List String
deriving DecidableEq, Repr

/-- `SseTransport.send` (src/transport/sse.ts lines 15-21): a no-op when
closed or the response has ended, otherwise one framed record. -/
def SseTransport.send (t : SseTransport) (chunk : String) : SseTransport :=
  if t.closed || t.writableEnded then t
  else { t with written := t.written ++ ["data: " ++ chunk ++ "\n\n"] }

/-- `SseTransport.close` (src/transport/sse.ts lines 23-32): a no-op
when closed, otherwise records the closure and ends the response if it
has not already ended. -/
def SseTransport.close (t : SseTransport) : SseTransport :=
  if t.closed then t
  else { t with closed := true, writableEnded := true }

/-- Ready states of a `ws` socket. -/
inductive WsReadyState where
  | CONNECTING
  | OPEN
  | CLOSING
  | CLOSED
deriving DecidableEq, Repr

/-- State of the socket wrapped by `WebSocketTransport`. -/
structure WsSocket where
  readyState : WsReadyState
  sent : List String
deriving DecidableEq, Repr

/-- `WebSocketTransport.send` (src/transport/websocket.ts lines 7-11):
writes only while the socket is OPEN. -/
def WebSocketTransport.send (s : WsSocket) (chunk : String) : WsSocket :=
  if s.readyState = .OPEN then { s with sent := s.sent ++ [chunk] } else s

/-- `WebSocketTransport.close` (src/transport/websocket.ts lines 13-20):
requests closure only from the OPEN or CONNECTING states. -/
def WebSocketTransport.close (s : WsSocket) : WsSocket :=
  if s.readyState = .OPEN ∨ s.readyState = .CONNECTING then
    { s with readyState := .CLOSING }
  else s

/-- A `BridgeEvent` record (src/events.ts): an immutable log entry.  The
optional `data` payload is carried as its already-serialized JSON text. -/
structure BridgeEvent where
  ts : String
  direction : String
  source : String
  message : String
  data : Option String
deriving DecidableEq, Repr

/-- JSON rendering of a string field value. -/
def jsonString (s : String) : String := "\"" ++ s ++ "\""

/-- The serialized form of a `BridgeEvent`, as `JSON.stringify` produces
it in `BridgeEventHub.emit`. -/
def eventJson (e : BridgeEvent) : String :=
  "\x7b\"ts\":" ++ jsonString e.ts ++
    ",\"direction\":" ++ jsonString e.direction ++
    ",\"source\":" ++ jsonString e.source ++
    ",\"message\":" ++ jsonString e.message ++
    (match e.data with
      | some d => ",\"data\":" ++ d
      | none => "") ++ "\x7d"

/-- One subscriber of the event hub: the response object held in the
hub's client set, with its `writableEnded` flag, whether a `write` call
on it currently throws, and everything written to it so far. -/
structure HubClient where
  id : Nat
  writableEnded : Bool
  writeFails : Bool
  written : List String
deriving DecidableEq, Repr

/-- The `for (const response of this.clients)` loop of
`BridgeEventHub.emit` (src/server.ts lines 36-51): an ended response is
removed and skipped; a response whose `write` throws is removed after
the failed (undelivered) write; every other subscriber receives the
framed chunk exactly once, in the set's iteration order. -/
def emitLoop (chunk : String) : List HubClient → List HubClient
  | [] => []
  | c :: rest =>
      if c.writableEnded then emitLoop chunk rest
      else if c.writeFails then emitLoop chunk rest
      else { c with written := c.written ++ [chunk] } :: emitLoop chunk rest

/-- `BridgeEventHub.emit` (src/server.ts lines 36-51). -/
def BridgeEventHub.emit (clients : List HubClient) (e : BridgeEvent) :
    List HubClient :=
  emitLoop ("data: " ++ eventJson e ++ "\n\n") clients

/-- The framed record one emit writes to each healthy subscriber. -/
def emitFrame (e : BridgeEvent) : String := "data: " ++ eventJson e ++ "\n\n"

/-- The single global transport mode of the server instance. -/
inductive TransportMode where
  | sse
  | websocket
deriving DecidableEq, Repr

/-- A transport sink held by a session: one of the two
`StreamTransport` implementations. -/
inductive Sink where
  | sse (t : SseTransport)
  | ws (s : WsSocket)
deriving DecidableEq, Repr

/-- Dispatch of `StreamTransport.send` to the concrete variant. -/
def Sink.send (s : Sink) (chunk : String) : Sink :=
  match s with
  | .sse t => .sse (t.send chunk)
  | .ws w => .ws (WebSocketTransport.send w chunk)

/-- Dispatch of `StreamTransport.close` to the concrete variant. -/
def Sink.close : Sink → Sink
  | .sse t => .sse t.close
  | .ws w => .ws (WebSocketTransport.close w)

/-- A sink through which nothing can be delivered any more: a closed
SSE transport, or a socket in the CLOSING or CLOSED state. -/
def Sink.isClosed : Sink → Bool
  | .sse t => t.closed
  | .ws w =>
      match w.readyState with
      | .CLOSING => true
      | .CLOSED => true
      | _ => false

/-- Everything ever delivered through a sink. -/
def Sink.delivered : Sink → List String
  | .sse t => t.written
  | .ws w => w.sent

/-- Pointwise update of a function-backed store. -/
def updFn {α : Type} [DecidableEq α] {β : Type} (m : α → β) (k : α) (v : β) :
    α → β :=
  fun x => if x = k then v else m x

/-- One entry of the `sessions` map of `registerChatRoutes`
(src/routes/chat.ts lines 20-24).  `sid` stands for the identity of the
`ClientSession` object; handles and timers are likewise identified by
the id under which they were allocated. -/
structure ClientSession where
  sid : Nat
  sinkId : Nat
  cancellation : Option Nat
  keepAliveTimer : Option Nat
deriving DecidableEq, Repr

/-- The mutable state owned by `registerChatRoutes` and the objects it
reaches: the session map, the store of transport sinks by identity, the
set of live keep-alive timers, which cancellation handles have been
cancelled resp. disposed, and a counter allocating fresh identities. -/
structure ServerState where
  mode : TransportMode
  sessions : String → Option ClientSession
  sinks : Nat → Sink
  timers : Nat → Bool
  cancelled : Nat → Bool
  disposed : Nat → Bool
  nextId : Nat

/-- JavaScript `String.prototype.trim`: strip leading and trailing
whitespace. -/
def jsTrim (s : String) : String :=
  ⟨((s.data.dropWhile Char.isWhitespace).reverse.dropWhile
      Char.isWhitespace).reverse⟩

/-- `parseClientId` (src/routes/chat.ts lines 30-36). -/
def parseClientId (input : Option String) : String :=
  match input with
  | some s => if (jsTrim s).length > 0 then jsTrim s else "default"
  | none => "default"

/-- `source.cancel()` on a `CancellationTokenSource`. -/
def markCancelled (st : ServerState) (h : Nat) : ServerState :=
  { st with cancelled := updFn st.cancelled h true }

/-- `source.dispose()` on a `CancellationTokenSource`. -/
def markDisposed (st : ServerState) (h : Nat) : ServerState :=
  { st with disposed := updFn st.disposed h true }

/-- The `expected && current !== expected` guard of `disposeSession`:
a supplied expected session blocks the teardown when it is not the
currently registered session object. -/
def expectedBlocks (expected : Option Nat) (sid : Nat) : Bool :=
  match expected with
  | some eid => sid ≠ eid
  | none => false

/-- `disposeSession` (src/routes/chat.ts lines 58-77): looks the client
up; when present (and not blocked by a stale `expected`), cancels and
disposes its generation handle, clears its keep-alive timer, closes its
transport and deletes the map entry. -/
def disposeSession (st : ServerState) (clientId : String)
    (expected : Option Nat) : ServerState :=
  match st.sessions clientId with
  | none => st
  | some current =>
      if expectedBlocks expected current.sid then st
      else
        let st1 :=
          match current.cancellation with
          | some h => markDisposed (markCancelled st h) h
          | none => st
        let st2 :=
          match current.keepAliveTimer with
          | some t => { st1 with timers := updFn st1.timers t false }
          | none => st1
        let st3 := { st2 with
          sinks := updFn st2.sinks current.sinkId
            ((st2.sinks current.sinkId).close) }
        { st3 with sessions := updFn st3.sessions clientId none }

/-- A freshly constructed `SseTransport` over a new response. -/
def newSseSink : Sink :=
  .sse { closed := false, writableEnded := false, written := [] }

/-- Result of the `GET /chat/stream` handler: the synchronous HTTP
rejection status, if any (the stream itself stays open on success). -/
structure StreamOpenResult where
  status : Option Nat
  state : ServerState

/-- The `GET /chat/stream` handler (src/routes/chat.ts lines 228-273):
rejected with 400 when the configured transport is not `sse`; otherwise
any existing session for the client is disposed first, then a fresh SSE
transport, keep-alive timer and session are installed. -/
def getChatStream (st : ServerState) (clientIdRaw : Option String) :
    StreamOpenResult :=
  if st.mode ≠ TransportMode.sse then { status := some 400, state := st }
  else
    let clientId := parseClientId clientIdRaw
    let st1 := disposeSession st clientId none
    let sinkId := st1.nextId
    let timerId := st1.nextId + 1
    let sid := st1.nextId + 2
    let session : ClientSession :=
      { sid := sid, sinkId := sinkId, cancellation := none,
        keepAliveTimer := some timerId }
    { status := none,
      state := { st1 with
        sinks := updFn st1.sinks sinkId newSseSink,
        timers := updFn st1.timers timerId true,
        sessions := updFn st1.sessions clientId (some session),
        nextId := st1.nextId + 3 } }

/-- The error frame the websocket handler sends when the configured
transport is `sse`. -/
def wsDisabledFrame : String :=
  "\x7b\"error\":\"WebSocket endpoint is disabled because localAI.transport is set to sse.\",\"done\":true\x7d"

/-- Result of the `/chat/ws` connection handler: the final state of the
connecting socket and of the server. -/
structure WsConnectResult where
  socket : WsSocket
  state : ServerState

/-- The `/chat/ws` connection handler (src/routes/chat.ts lines
275-307): when the configured transport is not `websocket`, one error
frame is sent on the socket and the socket is closed, the registry
untouched; otherwise any existing session for the client is disposed
first and a new websocket session is installed. -/
def wsChatHandler (st : ServerState) (socket : WsSocket)
    (clientIdRaw : Option String) : WsConnectResult :=
  if st.mode ≠ TransportMode.websocket then
    { socket :=
        WebSocketTransport.close (WebSocketTransport.send socket wsDisabledFrame),
      state := st }
  else
    let clientId := parseClientId clientIdRaw
    let st1 := disposeSession st clientId none
    let sinkId := st1.nextId
    let sid := st1.nextId + 1
    let session : ClientSession :=
      { sid := sid, sinkId := sinkId, cancellation := none,
        keepAliveTimer := none }
    { socket := socket,
      state := { st1 with
        sinks := updFn st1.sinks sinkId (.ws socket),
        sessions := updFn st1.sessions clientId (some session),
        nextId := st1.nextId + 2 } }

/-- The request body of `POST /chat`; a field is `none` when absent or
not a string. -/
structure ChatBody where
  prompt : Option String
  model : Option String
  clientId : Option String
deriving DecidableEq, Repr

/-- The primitive effects of the `POST /chat` handler, in the order the
handler performs them.  `responded` is the synchronous HTTP response;
`startedDriver` is the (asynchronous, fire-and-forget) launch of
`streamPromptToTransport`. -/
inductive ChatEvt where
  | cancelledOldGeneration (h : Nat)
  | installedHandle (h : Nat)
  | responded (status : Nat)
  | startedDriver (clientId : String) (h : Nat)
deriving DecidableEq, Repr

/-- Result of the `POST /chat` handler: the state it leaves behind and
its ordered effect trace. -/
structure ChatResult where
  state : ServerState
  events : List ChatEvt

/-- The `POST /chat` handler (src/routes/chat.ts lines 101-195): 400
when the prompt trims to empty, 409 when no session is registered for
the (possibly defaulted) client id; otherwise it cancels and disposes
any existing generation handle, installs a fresh one, responds 202, and
only then starts the generation driver. -/
def postChat (st : ServerState) (body : ChatBody) : ChatResult :=
  let prompt := jsTrim (body.prompt.getD "")
  let clientId := parseClientId body.clientId
  if prompt = "" then { state := st, events := [.responded 400] }
  else
    match st.sessions clientId with
    | none => { state := st, events := [.responded 409] }
    | some session =>
        let cancelEvts :=
          match session.cancellation with
          | some h => [ChatEvt.cancelledOldGeneration h]
          | none => []
        let st1 :=
          match session.cancellation with
          | some h => markDisposed (markCancelled st h) h
          | none => st
        let h := st1.nextId
        let session1 := { session with cancellation := some h }
        let st2 := { st1 with
          sessions := updFn st1.sessions clientId (some session1),
          nextId := st1.nextId + 1 }
        { state := st2,
          events := cancelEvts ++
            [.installedHandle h, .responded 202, .startedDriver clientId h] }

/-- Result of the `POST /chat/stop` handler. -/
structure StopResult where
  stopped : Bool
  clientId : String
  state : ServerState

/-- The `POST /chat/stop` handler (src/routes/chat.ts lines 197-226):
when the client's session holds a live generation handle it cancels and
disposes it and clears the session's handle, answering
`\x7bstopped:true, clientId\x7d`; otherwise it answers
`\x7bstopped:false, clientId\x7d` and changes nothing. -/
def postStop (st : ServerState) (clientIdRaw : Option String) : StopResult :=
  let clientId := parseClientId clientIdRaw
  match st.sessions clientId with
  | none => { stopped := false, clientId := clientId, state := st }
  | some session =>
      match session.cancellation with
      | none => { stopped := false, clientId := clientId, state := st }
      | some h =>
          let st1 := markDisposed (markCancelled st h) h
          let session1 := { session with cancellation := none }
          { stopped := true, clientId := clientId,
            state := { st1 with
              sessions := updFn st1.sessions clientId (some session1) } }

/-- The `.finally` handler of `POST /chat` (src/routes/chat.ts lines
183-194), projected onto the registry: the captured `session` object
(identity `sid`) disposes its captured handle `h` and clears the
session's `cancellation` field exactly when that handle is still the
session's current one; when the registered session has been replaced
(different identity) or removed, the registry is unaffected. -/
def chatFinally (st : ServerState) (clientId : String) (sid h : Nat) :
    ServerState :=
  match st.sessions clientId with
  | none => st
  | some session =>
      if session.sid = sid ∧ session.cancellation = some h then
        let st1 := markDisposed st h
        { st1 with
          sessions := updFn st1.sessions clientId
            (some { session with cancellation := none }) }
      else st

/-- The externally triggerable operations on the registry state after
some point in time: opening either kind of stream connection,
submitting a prompt, requesting a stop, a generation's `.finally`
settling, a connection-close callback firing with its captured session,
and a (possibly stale) generation delivering one chunk through the
transport object it captured. -/
inductive ServerOp where
  | openStream (clientIdRaw : Option String)
  | wsConnect (clientIdRaw : Option String)
  | chat (body : ChatBody)
  | stop (clientIdRaw : Option String)
  | finished (clientId : String) (sid h : Nat)
  | connectionClosed (clientId : String) (sid : Nat)
  | deliver (sinkId : Nat) (chunk : String)
deriving DecidableEq, Repr

/-- Interpretation of one operation on the server state.  A fresh
websocket connection arrives in the OPEN state with nothing sent. -/
def stepOp (st : ServerState) : ServerOp → ServerState
  | .openStream raw => (getChatStream st raw).state
  | .wsConnect raw => (wsChatHandler st ⟨.OPEN, []⟩ raw).state
  | .chat body => (postChat st body).state
  | .stop raw => (postStop st raw).state
  | .finished cid sid h => chatFinally st cid sid h
  | .connectionClosed cid sid => disposeSession st cid (some sid)
  | .deliver sinkId chunk =>
      { st with sinks := updFn st.sinks sinkId ((st.sinks sinkId).send chunk) }

/-- Running a sequence of operations. -/
def runOps (st : ServerState) (ops : List ServerOp) : ServerState :=
  ops.foldl stepOp st

/-- The loopback middleware of `LocalAiServer.start` (src/server.ts
lines 129-143): `req.socket.remoteAddress` is `none` when the socket no
longer reports a peer address.  Returns `some 403` when the request is
rejected and `none` when it is passed on to the routes. -/
def localOnlyMiddleware (remote : Option String) : Option Nat :=
  let isLocal :=
    match remote with
    | none => true
    | some r =>
        r = "127.0.0.1" || r = "::1" || r = "::ffff:127.0.0.1"
  if isLocal then none else some 403

/-- Modelled from the spec: "a loopback address (v4 or v6 form)" — the
IPv4 loopback `127.0.0.1`, the IPv6 loopback `::1`, or the IPv4-mapped
IPv6 loopback `::ffff:127.0.0.1`; a request with no peer address has no
loopback address. -/
def loopbackAddressSpec (remote : Option String) : Bool :=
  match remote with
  | none => false
  | some r => r = "127.0.0.1" || r = "::1" || r = "::ffff:127.0.0.1"

/-- The middleware chain: the loopback gate runs ahead of every route,
so a rejected request never reaches the route handler. -/
def handleWithGate (remote : Option String)
    (route : ServerState → ServerState × Nat) (st : ServerState) :
    ServerState × Nat :=
  match localOnlyMiddleware remote with
  | some status => (st, status)
  | none => route st

/-- Shape lemma for the loop: whatever the starting index, the emitted
actions are zero or more non-terminal data sends followed by exactly one
terminal send. -/
theorem driverLoop_shape (cancelled : Nat → Bool) :
    ∀ (fs : List String) (i : Nat) (e : ProviderEnd),
      ∃ (ds : List String) (t : StreamChunk),
        t.isTerminal = true ∧
        driverLoop cancelled fs i e =
          ds.map (fun d => TransportAction.send (.data d)) ++
            [TransportAction.send t] := by
  intro fs
  induction fs with
  | nil =>
      intro i e
      cases e with
      | normal => exact ⟨[], .done, rfl, rfl⟩
      | fail msg =>
          by_cases h : cancelled i
          · exact ⟨[], .done, rfl, by simp [driverLoop, h]⟩
          · exact ⟨[], .error msg, rfl, by simp [driverLoop, h]⟩
  | cons f rest ih =>
      intro i e
      by_cases h : cancelled i
      · exact ⟨[], .done, rfl, by simp [driverLoop, h]⟩
      · obtain ⟨ds, t, ht, heq⟩ := ih (i + 1) e
        exact ⟨f :: ds, t, ht, by simp [driverLoop, h, heq]⟩

/-- An error chunk is produced by the loop exactly when the run ends by
throwing and every observation of the cancellation token up to and
including the catch-block observation returned `false`. -/
theorem driverLoop_error_mem (cancelled : Nat → Bool) (msg : String) :
    ∀ (fs : List String) (i : Nat) (e : ProviderEnd),
      TransportAction.send (.error msg) ∈ driverLoop cancelled fs i e ↔
        (e = .fail msg ∧ ∀ j, j ≤ fs.length → cancelled (i + j) = false) := by
  intro fs
  induction fs with
  | nil =>
      intro i e
      cases e with
      | normal => simp [driverLoop]
      | fail m =>
          by_cases h : cancelled i
          · simp only [driverLoop, h, if_pos]
            simp only [List.mem_singleton, List.length_nil]
            constructor
            · intro hmem
              exact absurd hmem (by simp)
            · rintro ⟨hmsg, hall⟩
              have h0 := hall 0 (Nat.le_refl 0)
              rw [Nat.add_zero] at h0
              rw [h0] at h
              exact absurd h (by simp)
          · simp only [driverLoop, h, if_neg, Bool.false_eq_true,
              not_false_iff, if_false]
            simp only [List.mem_singleton, List.length_nil]
            constructor
            · intro hmem
              have hm : msg = m := by
                cases hmem
                rfl
              subst hm
              refine ⟨rfl, ?_⟩
              intro j hj
              interval_cases j
              simpa using h
            · rintro ⟨hmsg, -⟩
              cases hmsg
              rfl
  | cons f rest ih =>
      intro i e
      by_cases h : cancelled i
      · simp only [driverLoop, h, if_pos]
        simp only [List.mem_singleton]
        constructor
        · intro hmem
          exact absurd hmem (by simp)
        · rintro ⟨hmsg, hall⟩
          have h0 := hall 0 (Nat.zero_le _)
          rw [Nat.add_zero] at h0
          rw [h0] at h
          exact absurd h (by simp)
      · simp only [driverLoop, h, Bool.false_eq_true, not_false_iff, if_false]
        simp only [List.mem_cons]
        rw [ih (i + 1) e]
        constructor
        · rintro (habs | ⟨he, hall⟩)
          · exact absurd habs (by simp)
          · refine ⟨he, ?_⟩
            intro j hj
            cases j with
            | zero => simpa using h
            | succ j' =>
                have := hall j' (by simpa [List.length_cons] using hj)
                have harith : i + 1 + j' = i + (j' + 1) := by omega
                rwa [harith] at this
        · rintro ⟨he, hall⟩
          refine Or.inr ⟨he, ?_⟩
          intro j hj
          have := hall (j + 1) (by simp [List.length_cons]; omega)
          have harith : i + (j + 1) = i + 1 + j := by omega
          rwa [harith] at this

/-- If the run ends by throwing while the catch-block observation of the
token returns `true`, the loop's terminal chunk is the cancellation
terminal `\x7bdelta:"", done:true\x7d`, never the error chunk. -/
theorem driverLoop_fail_cancelled (cancelled : Nat → Bool) (msg : String) :
    ∀ (fs : List String) (i : Nat),
      cancelled (i + fs.length) = true →
      ∃ ds : List String,
        driverLoop cancelled fs i (.fail msg) =
          ds.map (fun d => TransportAction.send (.data d)) ++
            [TransportAction.send .done] := by
  intro fs
  induction fs with
  | nil =>
      intro i hc
      rw [List.length_nil, Nat.add_zero] at hc
      exact ⟨[], by simp [driverLoop, hc]⟩
  | cons f rest ih =>
      intro i hc
      by_cases h : cancelled i
      · exact ⟨[], by simp [driverLoop, h]⟩
      · have harith : i + (f :: rest).length = i + 1 + rest.length := by
          simp [List.length_cons]; omega
        rw [harith] at hc
        obtain ⟨ds, heq⟩ := ih (i + 1) hc
        exact ⟨f :: ds, by simp [driverLoop, h, heq]⟩

/-- C5: cancellation takes precedence over provider failure.  The driver
emits the error chunk `\x7berror:msg, done:true\x7d` exactly when the
provider run ends by throwing `msg` and no observation of the
cancellation token (loop observations and the catch-block observation)
returned `true`; and whenever the run ends by throwing while the
catch-block observation sees cancellation requested, the driver emits
the cancellation terminal `\x7bdelta:"", done:true\x7d` instead. -/
theorem C5_cancellation_precedes_error (run : ProviderRun)
    (cancelled : Nat → Bool) (msg : String) :
    (TransportAction.send (.error msg) ∈ streamPromptToTransport run cancelled ↔
      (run.ending = .fail msg ∧
        ∀ j, j ≤ run.fragments.length → cancelled j = false)) ∧
    (run.ending = .fail msg → cancelled run.fragments.length = true →
      ∃ ds : List String,
        streamPromptToTransport run cancelled =
          ds.map (fun d => TransportAction.send (.data d)) ++
            [TransportAction.send .done]) := by
  constructor
  · have := driverLoop_error_mem cancelled msg run.fragments 0 run.ending
    simpa [streamPromptToTransport] using this
  · intro he hc
    have := driverLoop_fail_cancelled cancelled msg run.fragments 0
      (by simpa using hc)
    rw [streamPromptToTransport, he]
    exact this

/-- C5 witness: a provider that yields `"a"` then throws `"boom"` while
cancellation is requested from observation 1 onward produces the data
chunk then the cancellation terminal, and no error chunk. -/
theorem C5_cancellation_precedes_error_witness :
    let run : ProviderRun := ⟨["a"], .fail "boom"⟩
    let cancelled : Nat → Bool := fun i => decide (1 ≤ i)
    (run.ending = ProviderEnd.fail "boom" ∧ cancelled run.fragments.length = true) ∧
    ∃ ds : List String,
      streamPromptToTransport run cancelled =
        ds.map (fun d => TransportAction.send (.data d)) ++
          [TransportAction.send .done] := by
  refine ⟨⟨rfl, by decide⟩, ?_⟩
  exact (C5_cancellation_precedes_error ⟨["a"], .fail "boom"⟩
    (fun i => decide (1 ≤ i)) "boom").2 rfl (by decide)

/-- C1: for every accepted prompt (every provider run and every
cancellation observation sequence), the generation driver emits a
sequence of zero or more non-terminal `\x7bdelta, done:false\x7d` chunks
followed by exactly one terminal chunk (`\x7bdelta:"", done:true\x7d` or
`\x7berror, done:true\x7d`), and emits nothing after the terminal chunk,
on every path (normal exhaustion, cancellation, provider failure). -/
theorem C1_chunk_sequence_shape (run : ProviderRun) (cancelled : Nat → Bool) :
    ∃ (ds : List String) (t : StreamChunk),
      (t = .done ∨ ∃ msg, t = .error msg) ∧
      streamPromptToTransport run cancelled =
        ds.map (fun d => TransportAction.send (.data d)) ++
          [TransportAction.send t] := by
  obtain ⟨ds, t, ht, heq⟩ := driverLoop_shape cancelled run.fragments 0 run.ending
  refine ⟨ds, t, ?_, heq⟩
  cases t with
  | data d => simp [StreamChunk.isTerminal] at ht
  | done => exact Or.inl rfl
  | error msg => exact Or.inr ⟨msg, rfl⟩

/-- If the first `m` observations of the cancellation token return
`false` and observation `m` returns `true`, with at least one
observation still to come (`m ≤ fs.length`), the loop forwards exactly
the first `m` fragments and then emits the cancellation terminal as its
next and final chunk. -/
theorem driverLoop_cancel_cut (cancelled : Nat → Bool) :
    ∀ (fs : List String) (i m : Nat) (e : ProviderEnd),
      m ≤ fs.length →
      (∀ j, j < m → cancelled (i + j) = false) →
      cancelled (i + m) = true →
      driverLoop cancelled fs i e =
        (fs.take m).map (fun d => TransportAction.send (.data d)) ++
          [TransportAction.send .done] := by
  intro fs
  induction fs with
  | nil =>
      intro i m e hm _ hc
      have hm0 : m = 0 := Nat.le_zero.mp hm
      subst hm0
      rw [Nat.add_zero] at hc
      cases e with
      | normal => simp [driverLoop]
      | fail msg => simp [driverLoop, hc]
  | cons f rest ih =>
      intro i m e hm hbefore hc
      cases m with
      | zero =>
          rw [Nat.add_zero] at hc
          simp [driverLoop, hc]
      | succ m' =>
          have h0 : cancelled i = false := by
            have := hbefore 0 (Nat.succ_pos m')
            rwa [Nat.add_zero] at this
          have hm' : m' ≤ rest.length := by
            simp [List.length_cons] at hm
            omega
          have hb' : ∀ j, j < m' → cancelled (i + 1 + j) = false := by
            intro j hj
            have := hbefore (j + 1) (by omega)
            have harith : i + (j + 1) = i + 1 + j := by omega
            rwa [harith] at this
          have hc' : cancelled (i + 1 + m') = true := by
            have harith : i + (m' + 1) = i + 1 + m' := by omega
            rwa [harith] at hc
          rw [List.take_succ_cons]
          simp only [driverLoop, h0, Bool.false_eq_true, not_false_iff,
            if_false, List.map_cons, List.cons_append]
          rw [ih (i + 1) m' e hm' hb' hc']

/-- C8: for both transport sink variants, `send` after `close` is a
no-op (it delivers nothing and leaves the sink unchanged), and `close`
is idempotent (a second `close` leaves the sink in the same closed state
with no further effect on the underlying channel). -/
theorem C8_send_after_close_noop_close_idempotent :
    (∀ (t : SseTransport) (chunk : String),
      t.close.send chunk = t.close) ∧
    (∀ t : SseTransport, t.close.close = t.close) ∧
    (∀ (s : WsSocket) (chunk : String),
      WebSocketTransport.send (WebSocketTransport.close s) chunk =
        WebSocketTransport.close s) ∧
    (∀ s : WsSocket,
      WebSocketTransport.close (WebSocketTransport.close s) =
        WebSocketTransport.close s) := by
  refine ⟨?_, ?_, ?_, ?_⟩
  · intro t chunk
    by_cases h : t.closed <;>
      simp [SseTransport.close, SseTransport.send, h]
  · intro t
    by_cases h : t.closed <;>
      simp [SseTransport.close, h]
  · intro s chunk
    cases h : s.readyState <;>
      simp [WebSocketTransport.close, WebSocketTransport.send, h]
  · intro s
    cases h : s.readyState <;>
      simp [WebSocketTransport.close, h]

/-- C9: `emit` writes the event exactly once to every subscriber whose
channel is still writable and whose write does not throw, preserving the
hub's own iteration order; a subscriber whose channel has ended or whose
write throws is removed from the set (its writes unchanged) while every
other subscriber still receives the event; and with zero subscribers
`emit` performs no writes. -/
theorem C9_emit_fanout (clients : List HubClient) (e : BridgeEvent) :
    BridgeEventHub.emit clients e =
      (clients.filter (fun c => !c.writableEnded && !c.writeFails)).map
        (fun c => { c with written := c.written ++ [emitFrame e] }) ∧
    BridgeEventHub.emit ([] : List HubClient) e = [] := by
  constructor
  · induction clients with
    | nil => rfl
    | cons c rest ih =>
        by_cases h1 : c.writableEnded
        · simpa [BridgeEventHub.emit, emitLoop, emitFrame, h1,
            List.filter_cons] using ih
        · by_cases h2 : c.writeFails
          · simpa [BridgeEventHub.emit, emitLoop, emitFrame, h1, h2,
              List.filter_cons] using ih
          · simpa [BridgeEventHub.emit, emitLoop, emitFrame, h1, h2,
              List.filter_cons] using ih
  · rfl

/-- `send` delivers nothing through a sink that is already closed. -/
theorem Sink.send_of_isClosed (s : Sink) (chunk : String)
    (h : s.isClosed = true) : s.send chunk = s := by
  cases s with
  | sse t =>
      simp only [Sink.isClosed] at h
      simp [Sink.send, SseTransport.send, h]
  | ws w =>
      cases hr : w.readyState with
      | CONNECTING => simp [Sink.isClosed, hr] at h
      | OPEN => simp [Sink.isClosed, hr] at h
      | CLOSING => simp [Sink.send, WebSocketTransport.send, hr]
      | CLOSED => simp [Sink.send, WebSocketTransport.send, hr]

/-- `close` on a sink that is already closed changes nothing. -/
theorem Sink.close_of_isClosed (s : Sink) (h : s.isClosed = true) :
    s.close = s := by
  cases s with
  | sse t =>
      simp only [Sink.isClosed] at h
      simp [Sink.close, SseTransport.close, h]
  | ws w =>
      cases hr : w.readyState with
      | CONNECTING => simp [Sink.isClosed, hr] at h
      | OPEN => simp [Sink.isClosed, hr] at h
      | CLOSING => simp [Sink.close, WebSocketTransport.close, hr]
      | CLOSED => simp [Sink.close, WebSocketTransport.close, hr]

/-- After `close`, a sink is closed. -/
theorem Sink.isClosed_close (s : Sink) : s.close.isClosed = true := by
  cases s with
  | sse t =>
      by_cases h : t.closed <;>
        simp [Sink.close, SseTransport.close, Sink.isClosed, h]
  | ws w =>
      cases hr : w.readyState <;>
        simp [Sink.close, WebSocketTransport.close, Sink.isClosed, hr]

/-- `close` does not change what a sink has delivered. -/
theorem Sink.delivered_close (s : Sink) : s.close.delivered = s.delivered := by
  cases s with
  | sse t =>
      by_cases h : t.closed <;>
        simp [Sink.close, SseTransport.close, Sink.delivered, h]
  | ws w =>
      cases hr : w.readyState <;>
        simp [Sink.close, WebSocketTransport.close, Sink.delivered, hr]

/-- `disposeSession` leaves the id counter alone. -/
theorem disposeSession_nextId (st : ServerState) (cid : String)
    (e : Option Nat) : (disposeSession st cid e).nextId = st.nextId := by
  cases hs : st.sessions cid with
  | none => simp [disposeSession, hs]
  | some current =>
      by_cases hb : expectedBlocks e current.sid
      · simp [disposeSession, hs, hb]
      · cases hc : current.cancellation <;>
          cases hk : current.keepAliveTimer <;>
          simp [disposeSession, hs, hb, hc, hk, markCancelled, markDisposed]

/-- `disposeSession` leaves every sink alone except the disposed
session's own sink, which it closes. -/
theorem disposeSession_sinks (st : ServerState) (cid : String)
    (e : Option Nat) (sid : Nat) :
    (disposeSession st cid e).sinks sid = st.sinks sid ∨
    (disposeSession st cid e).sinks sid = (st.sinks sid).close := by
  cases hs : st.sessions cid with
  | none => exact Or.inl (by simp [disposeSession, hs])
  | some current =>
      by_cases hb : expectedBlocks e current.sid
      · exact Or.inl (by simp [disposeSession, hs, hb])
      · by_cases hid : sid = current.sinkId
        · refine Or.inr ?_
          subst hid
          cases hc : current.cancellation <;>
            cases hk : current.keepAliveTimer <;>
            simp [disposeSession, hs, hb, hc, hk, markCancelled,
              markDisposed, updFn]
        · refine Or.inl ?_
          cases hc : current.cancellation <;>
            cases hk : current.keepAliveTimer <;>
            simp [disposeSession, hs, hb, hc, hk, markCancelled,
              markDisposed, updFn, hid]

/-- A closed sink is untouched by `disposeSession`. -/
theorem disposeSession_sink_frozen (st : ServerState) (cid : String)
    (e : Option Nat) (sid : Nat) (hcl : (st.sinks sid).isClosed = true) :
    (disposeSession st cid e).sinks sid = st.sinks sid := by
  rcases disposeSession_sinks st cid e sid with h | h
  · exact h
  · rw [h, Sink.close_of_isClosed _ hcl]

/-- `postChat` never touches the sink store. -/
theorem postChat_sinks (st : ServerState) (body : ChatBody) :
    (postChat st body).state.sinks = st.sinks := by
  by_cases hp : jsTrim (body.prompt.getD "") = ""
  · simp [postChat, hp]
  · cases hs : st.sessions (parseClientId body.clientId) with
    | none => simp [postChat, hp, hs]
    | some session =>
        cases hc : session.cancellation <;>
          simp [postChat, hp, hs, hc, markCancelled, markDisposed]

/-- `postChat` never lowers the id counter. -/
theorem postChat_nextId_ge (st : ServerState) (body : ChatBody) :
    st.nextId ≤ (postChat st body).state.nextId := by
  by_cases hp : jsTrim (body.prompt.getD "") = ""
  · simp [postChat, hp]
  · cases hs : st.sessions (parseClientId body.clientId) with
    | none => simp [postChat, hp, hs]
    | some session =>
        cases hc : session.cancellation <;>
          simp [postChat, hp, hs, hc, markCancelled, markDisposed]

/-- `postStop` never touches the sink store. -/
theorem postStop_sinks (st : ServerState) (raw : Option String) :
    (postStop st raw).state.sinks = st.sinks := by
  cases hs : st.sessions (parseClientId raw) with
  | none => simp [postStop, hs]
  | some session =>
      cases hc : session.cancellation <;>
        simp [postStop, hs, hc, markCancelled, markDisposed]

/-- `postStop` leaves the id counter alone. -/
theorem postStop_nextId (st : ServerState) (raw : Option String) :
    (postStop st raw).state.nextId = st.nextId := by
  cases hs : st.sessions (parseClientId raw) with
  | none => simp [postStop, hs]
  | some session =>
      cases hc : session.cancellation <;>
        simp [postStop, hs, hc, markCancelled, markDisposed]

/-- `chatFinally` never touches the sink store. -/
theorem chatFinally_sinks (st : ServerState) (cid : String) (sid h : Nat) :
    (chatFinally st cid sid h).sinks = st.sinks := by
  cases hs : st.sessions cid with
  | none => simp [chatFinally, hs]
  | some session =>
      by_cases hg : session.sid = sid ∧ session.cancellation = some h <;>
        simp [chatFinally, hs, hg, markDisposed]

/-- `chatFinally` leaves the id counter alone. -/
theorem chatFinally_nextId (st : ServerState) (cid : String) (sid h : Nat) :
    (chatFinally st cid sid h).nextId = st.nextId := by
  cases hs : st.sessions cid with
  | none => simp [chatFinally, hs]
  | some session =>
      by_cases hg : session.sid = sid ∧ session.cancellation = some h <;>
        simp [chatFinally, hs, hg, markDisposed]

/-- One operation neither delivers through nor reopens a sink that is
already closed and already allocated, and keeps its id allocated. -/
theorem stepOp_sink_frozen (st : ServerState) (op : ServerOp) (sid : Nat)
    (hlt : sid < st.nextId) (hcl : (st.sinks sid).isClosed = true) :
    (stepOp st op).sinks sid = st.sinks sid ∧ sid < (stepOp st op).nextId := by
  cases op with
  | openStream raw =>
      show (getChatStream st raw).state.sinks sid = st.sinks sid ∧
        sid < (getChatStream st raw).state.nextId
      by_cases hm : st.mode ≠ TransportMode.sse
      · simp [getChatStream, hm, hlt]
      · have hd := disposeSession_sink_frozen st (parseClientId raw) none sid hcl
        have hn := disposeSession_nextId st (parseClientId raw) none
        have hne : sid ≠ (disposeSession st (parseClientId raw) none).nextId := by
          omega
        simp only [getChatStream, hm, if_false]
        constructor
        · simp [updFn, hne, hd]
        · show sid < (disposeSession st (parseClientId raw) none).nextId + 3
          omega
  | wsConnect raw =>
      show (wsChatHandler st ⟨.OPEN, []⟩ raw).state.sinks sid = st.sinks sid ∧
        sid < (wsChatHandler st ⟨.OPEN, []⟩ raw).state.nextId
      by_cases hm : st.mode ≠ TransportMode.websocket
      · simp [wsChatHandler, hm, hlt]
      · have hd := disposeSession_sink_frozen st (parseClientId raw) none sid hcl
        have hn := disposeSession_nextId st (parseClientId raw) none
        have hne : sid ≠ (disposeSession st (parseClientId raw) none).nextId := by
          omega
        simp only [wsChatHandler, hm, if_false]
        constructor
        · simp [updFn, hne, hd]
        · show sid < (disposeSession st (parseClientId raw) none).nextId + 2
          omega
  | chat body =>
      refine ⟨?_, ?_⟩
      · show (postChat st body).state.sinks sid = st.sinks sid
        rw [postChat_sinks]
      · have := postChat_nextId_ge st body
        show sid < (postChat st body).state.nextId
        omega
  | stop raw =>
      refine ⟨?_, ?_⟩
      · show (postStop st raw).state.sinks sid = st.sinks sid
        rw [postStop_sinks]
      · show sid < (postStop st raw).state.nextId
        rw [postStop_nextId]
        exact hlt
  | finished cid sid' h =>
      refine ⟨?_, ?_⟩
      · show (chatFinally st cid sid' h).sinks sid = st.sinks sid
        rw [chatFinally_sinks]
      · show sid < (chatFinally st cid sid' h).nextId
        rw [chatFinally_nextId]
        exact hlt
  | connectionClosed cid sid' =>
      refine ⟨disposeSession_sink_frozen st cid (some sid') sid hcl, ?_⟩
      show sid < (disposeSession st cid (some sid')).nextId
      rw [disposeSession_nextId]
      exact hlt
  | deliver k chunk =>
      refine ⟨?_, hlt⟩
      by_cases hk : sid = k
      · subst hk
        simp [stepOp, updFn, Sink.send_of_isClosed _ chunk hcl]
      · simp [stepOp, updFn, hk]

/-- No sequence of further operations can change a sink that is already
closed and already allocated: in particular nothing is ever delivered
through it again. -/
theorem runOps_sink_frozen (ops : List ServerOp) (st : ServerState)
    (sid : Nat) (hlt : sid < st.nextId)
    (hcl : (st.sinks sid).isClosed = true) :
    (runOps st ops).sinks sid = st.sinks sid := by
  induction ops generalizing st with
  | nil => rfl
  | cons op rest ih =>
      obtain ⟨heq, hlt'⟩ := stepOp_sink_frozen st op sid hlt hcl
      have hcl' : ((stepOp st op).sinks sid).isClosed = true := by
        rw [heq]; exact hcl
      have : runOps st (op :: rest) = runOps (stepOp st op) rest := rfl
      rw [this, ih (stepOp st op) hlt' hcl', heq]

/-- Disposing a registered session cancels and disposes its generation
handle. -/
theorem disposeSession_cancels (st : ServerState) (cid : String)
    (old : ClientSession) (h : Nat)
    (hs : st.sessions cid = some old) (hc : old.cancellation = some h) :
    (disposeSession st cid none).cancelled h = true ∧
    (disposeSession st cid none).disposed h = true := by
  cases hk : old.keepAliveTimer <;>
    simp [disposeSession, hs, expectedBlocks, hc, hk, markCancelled,
      markDisposed, updFn]

/-- Disposing a registered session clears its keep-alive timer. -/
theorem disposeSession_clears_timer (st : ServerState) (cid : String)
    (old : ClientSession) (t : Nat)
    (hs : st.sessions cid = some old) (hk : old.keepAliveTimer = some t) :
    (disposeSession st cid none).timers t = false := by
  cases hc : old.cancellation <;>
    simp [disposeSession, hs, expectedBlocks, hc, hk, markCancelled,
      markDisposed, updFn]

/-- Disposing a registered session closes its transport sink. -/
theorem disposeSession_closes_sink (st : ServerState) (cid : String)
    (old : ClientSession) (hs : st.sessions cid = some old) :
    (disposeSession st cid none).sinks old.sinkId =
      (st.sinks old.sinkId).close := by
  cases hc : old.cancellation <;>
    cases hk : old.keepAliveTimer <;>
    simp [disposeSession, hs, expectedBlocks, hc, hk, markCancelled,
      markDisposed, updFn]

/-- Disposing a registered session removes it from the map. -/
theorem disposeSession_removes (st : ServerState) (cid : String)
    (old : ClientSession) (hs : st.sessions cid = some old) :
    (disposeSession st cid none).sessions cid = none := by
  cases hc : old.cancellation <;>
    cases hk : old.keepAliveTimer <;>
    simp [disposeSession, hs, expectedBlocks, hc, hk, markCancelled,
      markDisposed, updFn]

/-- C2: opening a second stream connection (SSE or WebSocket) with the
same clientId first tears the existing session down completely — its
generation handle is cancelled and disposed, its keep-alive timer
cleared, its old sink closed — before the new session (with a fresh,
open sink) is installed, and no operation afterwards can deliver any
chunk to the stale sink. -/
theorem C2_second_connection_teardown :
    (∀ (st : ServerState) (raw : Option String) (old : ClientSession),
      st.mode = TransportMode.sse →
      st.sessions (parseClientId raw) = some old →
      old.sinkId < st.nextId →
      (∀ t, old.keepAliveTimer = some t → t < st.nextId) →
      (getChatStream st raw).state.sinks old.sinkId =
        (st.sinks old.sinkId).close ∧
      ((getChatStream st raw).state.sinks old.sinkId).isClosed = true ∧
      (∀ h, old.cancellation = some h →
        (getChatStream st raw).state.cancelled h = true ∧
        (getChatStream st raw).state.disposed h = true) ∧
      (∀ t, old.keepAliveTimer = some t →
        (getChatStream st raw).state.timers t = false) ∧
      (getChatStream st raw).state.sessions (parseClientId raw) =
        some { sid := st.nextId + 2, sinkId := st.nextId,
               cancellation := none, keepAliveTimer := some (st.nextId + 1) } ∧
      st.nextId ≠ old.sinkId ∧
      ((getChatStream st raw).state.sinks st.nextId).isClosed = false ∧
      (∀ ops : List ServerOp,
        ((runOps (getChatStream st raw).state ops).sinks old.sinkId).delivered =
          (st.sinks old.sinkId).delivered)) ∧
    (∀ (st : ServerState) (raw : Option String) (old : ClientSession),
      st.mode = TransportMode.websocket →
      st.sessions (parseClientId raw) = some old →
      old.sinkId < st.nextId →
      (∀ t, old.keepAliveTimer = some t → t < st.nextId) →
      (wsChatHandler st ⟨.OPEN, []⟩ raw).state.sinks old.sinkId =
        (st.sinks old.sinkId).close ∧
      ((wsChatHandler st ⟨.OPEN, []⟩ raw).state.sinks old.sinkId).isClosed = true ∧
      (∀ h, old.cancellation = some h →
        (wsChatHandler st ⟨.OPEN, []⟩ raw).state.cancelled h = true ∧
        (wsChatHandler st ⟨.OPEN, []⟩ raw).state.disposed h = true) ∧
      (∀ t, old.keepAliveTimer = some t →
        (wsChatHandler st ⟨.OPEN, []⟩ raw).state.timers t = false) ∧
      (wsChatHandler st ⟨.OPEN, []⟩ raw).state.sessions (parseClientId raw) =
        some { sid := st.nextId + 1, sinkId := st.nextId,
               cancellation := none, keepAliveTimer := none } ∧
      st.nextId ≠ old.sinkId ∧
      ((wsChatHandler st ⟨.OPEN, []⟩ raw).state.sinks st.nextId).isClosed = false ∧
      (∀ ops : List ServerOp,
        ((runOps (wsChatHandler st ⟨.OPEN, []⟩ raw).state ops).sinks old.sinkId).delivered =
          (st.sinks old.sinkId).delivered)) := by
  constructor
  · intro st raw old hmode hs hsink htimer
    have hm' : ¬ st.mode ≠ TransportMode.sse := by simp [hmode]
    have hn := disposeSession_nextId st (parseClientId raw) none
    have hne : old.sinkId ≠ (disposeSession st (parseClientId raw) none).nextId := by
      omega
    have hclose := disposeSession_closes_sink st (parseClientId raw) old hs
    have ha : (getChatStream st raw).state.sinks old.sinkId =
        (st.sinks old.sinkId).close := by
      simp [getChatStream, hm', updFn, hne, hclose]
    have hb : ((getChatStream st raw).state.sinks old.sinkId).isClosed = true := by
      rw [ha]
      exact Sink.isClosed_close _
    refine ⟨ha, hb, ?_, ?_, ?_, by omega, ?_, ?_⟩
    · intro h hc
      have := disposeSession_cancels st (parseClientId raw) old h hs hc
      constructor <;> simp [getChatStream, hm', this.1, this.2]
    · intro t ht
      have hlt := htimer t ht
      have hne2 : t ≠ (disposeSession st (parseClientId raw) none).nextId + 1 := by
        omega
      have := disposeSession_clears_timer st (parseClientId raw) old t hs ht
      simp [getChatStream, hm', updFn, hne2, this]
    · simp [getChatStream, hm', updFn, hn]
    · have hne3 : ¬ st.nextId = (disposeSession st (parseClientId raw) none).nextId → False := by
        omega
      simp [getChatStream, hm', updFn, hn, newSseSink, Sink.isClosed]
    · intro ops
      have hlt' : old.sinkId < (getChatStream st raw).state.nextId := by
        have : (getChatStream st raw).state.nextId =
            (disposeSession st (parseClientId raw) none).nextId + 3 := by
          simp [getChatStream, hm']
        omega
      have hfrozen := runOps_sink_frozen ops (getChatStream st raw).state
        old.sinkId hlt' hb
      rw [hfrozen, ha, Sink.delivered_close]
  · intro st raw old hmode hs hsink htimer
    have hm' : ¬ st.mode ≠ TransportMode.websocket := by simp [hmode]
    have hn := disposeSession_nextId st (parseClientId raw) none
    have hne : old.sinkId ≠ (disposeSession st (parseClientId raw) none).nextId := by
      omega
    have hclose := disposeSession_closes_sink st (parseClientId raw) old hs
    have ha : (wsChatHandler st ⟨.OPEN, []⟩ raw).state.sinks old.sinkId =
        (st.sinks old.sinkId).close := by
      simp [wsChatHandler, hm', updFn, hne, hclose]
    have hb : ((wsChatHandler st ⟨.OPEN, []⟩ raw).state.sinks old.sinkId).isClosed = true := by
      rw [ha]
      exact Sink.isClosed_close _
    refine ⟨ha, hb, ?_, ?_, ?_, by omega, ?_, ?_⟩
    · intro h hc
      have := disposeSession_cancels st (parseClientId raw) old h hs hc
      constructor <;> simp [wsChatHandler, hm', this.1, this.2]
    · intro t ht
      have := disposeSession_clears_timer st (parseClientId raw) old t hs ht
      simp [wsChatHandler, hm', this]
    · simp [wsChatHandler, hm', updFn, hn]
    · simp [wsChatHandler, hm', updFn, hn, Sink.isClosed]
    · intro ops
      have hlt' : old.sinkId < (wsChatHandler st ⟨.OPEN, []⟩ raw).state.nextId := by
        have : (wsChatHandler st ⟨.OPEN, []⟩ raw).state.nextId =
            (disposeSession st (parseClientId raw) none).nextId + 2 := by
          simp [wsChatHandler, hm']
        omega
      have hfrozen := runOps_sink_frozen ops (wsChatHandler st ⟨.OPEN, []⟩ raw).state
        old.sinkId hlt' hb
      rw [hfrozen, ha, Sink.delivered_close]

/-- C2 witness: a concrete SSE server with a registered session for
`"abc"` (sink 1, generation handle 2, keep-alive timer 3); reopening the
stream closes the stale sink, installs the fresh session, and no later
operation sequence delivers anything to sink 1. -/
theorem C2_second_connection_teardown_witness :
    let old : ClientSession :=
      { sid := 0, sinkId := 1, cancellation := some 2, keepAliveTimer := some 3 }
    let st0 : ServerState :=
      { mode := TransportMode.sse,
        sessions := fun cid => if cid = "abc" then some old else none,
        sinks := fun _ => newSseSink,
        timers := fun t => decide (t = 3),
        cancelled := fun _ => false,
        disposed := fun _ => false,
        nextId := 4 }
    (st0.mode = TransportMode.sse ∧
      st0.sessions (parseClientId (some "abc")) = some old ∧
      old.sinkId < st0.nextId ∧
      (∀ t, old.keepAliveTimer = some t → t < st0.nextId)) ∧
    ((getChatStream st0 (some "abc")).state.sinks old.sinkId).isClosed = true ∧
    (getChatStream st0 (some "abc")).state.cancelled 2 = true ∧
    (getChatStream st0 (some "abc")).state.timers 3 = false ∧
    (getChatStream st0 (some "abc")).state.sessions (parseClientId (some "abc")) =
      some { sid := 6, sinkId := 4, cancellation := none,
             keepAliveTimer := some 5 } ∧
    (∀ ops : List ServerOp,
      ((runOps (getChatStream st0 (some "abc")).state ops).sinks old.sinkId).delivered =
        (st0.sinks old.sinkId).delivered) := by
  intro old st0
  have htimer : ∀ t, old.keepAliveTimer = some t → t < st0.nextId := by
    intro t ht
    injection ht with h
    rw [← h]
    decide
  have H := C2_second_connection_teardown.1 st0 (some "abc") old rfl
    (by decide) (by decide) htimer
  exact ⟨⟨rfl, by decide, by decide, htimer⟩, H.2.1,
    (H.2.2.1 2 rfl).1, H.2.2.2.1 3 rfl, H.2.2.2.2.1, H.2.2.2.2.2.2.2⟩

/-- C3: `POST /chat` answers 400 without touching any state when the
prompt trims to empty; answers 409 without touching any state when no
session is registered for the (possibly defaulted) clientId; and
otherwise cancels and disposes any existing generation handle, installs
a fresh one, responds 202 and only afterwards starts the generation
driver, in that order. -/
theorem C3_post_chat_validation (st : ServerState) (body : ChatBody) :
    (jsTrim (body.prompt.getD "") = "" →
      postChat st body = { state := st, events := [ChatEvt.responded 400] }) ∧
    (jsTrim (body.prompt.getD "") ≠ "" →
      st.sessions (parseClientId body.clientId) = none →
      postChat st body = { state := st, events := [ChatEvt.responded 409] }) ∧
    (∀ session, jsTrim (body.prompt.getD "") ≠ "" →
      st.sessions (parseClientId body.clientId) = some session →
      (postChat st body).events =
        (match session.cancellation with
          | some h => [ChatEvt.cancelledOldGeneration h]
          | none => []) ++
        [ChatEvt.installedHandle st.nextId, ChatEvt.responded 202,
          ChatEvt.startedDriver (parseClientId body.clientId) st.nextId] ∧
      (postChat st body).state.sessions (parseClientId body.clientId) =
        some { session with cancellation := some st.nextId } ∧
      (∀ h, session.cancellation = some h →
        (postChat st body).state.cancelled h = true ∧
        (postChat st body).state.disposed h = true) ∧
      (postChat st body).state.sinks = st.sinks) := by
  refine ⟨?_, ?_, ?_⟩
  · intro hp
    simp [postChat, hp]
  · intro hp hnone
    simp [postChat, hp, hnone]
  · intro session hp hsess
    refine ⟨?_, ?_, ?_, postChat_sinks st body⟩
    · cases hc : session.cancellation <;>
        simp [postChat, hp, hsess, hc, markCancelled, markDisposed]
    · cases hc : session.cancellation <;>
        simp [postChat, hp, hsess, hc, markCancelled, markDisposed, updFn]
    · intro h hc
      constructor <;>
        simp [postChat, hp, hsess, hc, markCancelled, markDisposed, updFn]

/-- C3 witness: a prompt of blanks is rejected with 400 on a fresh
server; `"hi"` with no stream connection is rejected with 409; `"hi"`
against a registered session with a live generation handle yields the
cancel–install–202–start trace. -/
theorem C3_post_chat_validation_witness :
    let stE : ServerState :=
      { mode := TransportMode.sse,
        sessions := fun _ => none,
        sinks := fun _ => newSseSink,
        timers := fun _ => false,
        cancelled := fun _ => false,
        disposed := fun _ => false,
        nextId := 0 }
    let old : ClientSession :=
      { sid := 0, sinkId := 1, cancellation := some 2, keepAliveTimer := some 3 }
    let st0 : ServerState :=
      { mode := TransportMode.sse,
        sessions := fun cid => if cid = "abc" then some old else none,
        sinks := fun _ => newSseSink,
        timers := fun t => decide (t = 3),
        cancelled := fun _ => false,
        disposed := fun _ => false,
        nextId := 4 }
    (jsTrim ((ChatBody.mk (some "   ") none none).prompt.getD "") = "" ∧
      postChat stE (ChatBody.mk (some "   ") none none) =
        { state := stE, events := [ChatEvt.responded 400] }) ∧
    (jsTrim ((ChatBody.mk (some "hi") none none).prompt.getD "") ≠ "" ∧
      stE.sessions (parseClientId none) = none ∧
      postChat stE (ChatBody.mk (some "hi") none none) =
        { state := stE, events := [ChatEvt.responded 409] }) ∧
    (st0.sessions (parseClientId (some "abc")) = some old ∧
      (postChat st0 (ChatBody.mk (some "hi") none (some "abc"))).events =
        [ChatEvt.cancelledOldGeneration 2, ChatEvt.installedHandle 4,
          ChatEvt.responded 202, ChatEvt.startedDriver "abc" 4] ∧
      (postChat st0 (ChatBody.mk (some "hi") none (some "abc"))).state.sessions
          (parseClientId (some "abc")) =
        some { sid := 0, sinkId := 1, cancellation := some 4,
               keepAliveTimer := some 3 }) := by
  intro stE old st0
  have h1 := (C3_post_chat_validation stE (ChatBody.mk (some "   ") none none)).1
    (by decide)
  have h2 := (C3_post_chat_validation stE (ChatBody.mk (some "hi") none none)).2.1
    (by decide) (by decide)
  have h3 := (C3_post_chat_validation st0
    (ChatBody.mk (some "hi") none (some "abc"))).2.2 old (by decide) (by decide)
  exact ⟨⟨by decide, h1⟩, ⟨by decide, by decide, h2⟩,
    ⟨by decide, h3.1, h3.2.1⟩⟩

/-- C4: `POST /chat/stop` with a live generation cancels and disposes
its handle, clears the session's handle and answers
`\x7bstopped:true, clientId\x7d`; with no session or no live generation
it answers `\x7bstopped:false, clientId\x7d` and changes nothing; a
repeated stop is idempotent; and on the stream of a generation whose
cancellation is requested after `k` clean token observations, the very
next — and final — chunk is `\x7bdelta:"", done:true\x7d`. -/
theorem C4_stop_semantics :
    (∀ (st : ServerState) (raw : Option String) (session : ClientSession)
      (h : Nat),
      st.sessions (parseClientId raw) = some session →
      session.cancellation = some h →
      (postStop st raw).stopped = true ∧
      (postStop st raw).clientId = parseClientId raw ∧
      (postStop st raw).state.cancelled h = true ∧
      (postStop st raw).state.disposed h = true ∧
      (postStop st raw).state.sessions (parseClientId raw) =
        some { session with cancellation := none } ∧
      (postStop st raw).state.sinks = st.sinks) ∧
    (∀ (st : ServerState) (raw : Option String),
      (∀ session, st.sessions (parseClientId raw) = some session →
        session.cancellation = none) →
      postStop st raw =
        { stopped := false, clientId := parseClientId raw, state := st }) ∧
    (∀ (st : ServerState) (raw : Option String),
      postStop (postStop st raw).state raw =
        { stopped := false, clientId := parseClientId raw,
          state := (postStop st raw).state }) ∧
    (∀ (run : ProviderRun) (cancelled : Nat → Bool) (k : Nat),
      (∀ j, j < k → cancelled j = false) →
      (∀ j, k ≤ j → cancelled j = true) →
      k ≤ run.fragments.length →
      streamPromptToTransport run cancelled =
        (run.fragments.take k).map (fun d => TransportAction.send (.data d)) ++
          [TransportAction.send .done]) := by
  refine ⟨?_, ?_, ?_, ?_⟩
  · intro st raw session h hs hc
    refine ⟨?_, ?_, ?_, ?_, ?_, postStop_sinks st raw⟩ <;>
      simp [postStop, hs, hc, markCancelled, markDisposed, updFn]
  · intro st raw hnone
    cases hs : st.sessions (parseClientId raw) with
    | none => simp [postStop, hs]
    | some session =>
        have hc := hnone session hs
        simp [postStop, hs, hc]
  · intro st raw
    cases hs : st.sessions (parseClientId raw) with
    | none => simp [postStop, hs]
    | some session =>
        cases hc : session.cancellation with
        | none => simp [postStop, hs, hc]
        | some h =>
            simp [postStop, hs, hc, markCancelled, markDisposed, updFn]
  · intro run cancelled k hbefore hafter hk
    have := driverLoop_cancel_cut cancelled run.fragments 0 k run.ending hk
      (by intro j hj; simpa using hbefore j hj)
      (by simpa using hafter k (Nat.le_refl k))
    simpa [streamPromptToTransport] using this

/-- C4 witness: stopping the live generation of client `"abc"` cancels
handle 2 and answers stopped:true; stopping on a fresh server answers
stopped:false and changes nothing; a second stop answers stopped:false;
and a generation cancelled after one clean observation of two fragments
emits the first fragment and then the terminal done chunk. -/
theorem C4_stop_semantics_witness :
    let old : ClientSession :=
      { sid := 0, sinkId := 1, cancellation := some 2, keepAliveTimer := some 3 }
    let st0 : ServerState :=
      { mode := TransportMode.sse,
        sessions := fun cid => if cid = "abc" then some old else none,
        sinks := fun _ => newSseSink,
        timers := fun t => decide (t = 3),
        cancelled := fun _ => false,
        disposed := fun _ => false,
        nextId := 4 }
    let stE : ServerState :=
      { mode := TransportMode.sse,
        sessions := fun _ => none,
        sinks := fun _ => newSseSink,
        timers := fun _ => false,
        cancelled := fun _ => false,
        disposed := fun _ => false,
        nextId := 0 }
    (st0.sessions (parseClientId (some "abc")) = some old ∧
      old.cancellation = some 2 ∧
      (postStop st0 (some "abc")).stopped = true ∧
      (postStop st0 (some "abc")).state.cancelled 2 = true ∧
      (postStop st0 (some "abc")).state.sessions (parseClientId (some "abc")) =
        some { sid := 0, sinkId := 1, cancellation := none,
               keepAliveTimer := some 3 }) ∧
    ((∀ session, stE.sessions (parseClientId none) = some session →
        session.cancellation = none) ∧
      postStop stE none =
        { stopped := false, clientId := parseClientId none, state := stE }) ∧
    postStop (postStop st0 (some "abc")).state (some "abc") =
      { stopped := false, clientId := parseClientId (some "abc"),
        state := (postStop st0 (some "abc")).state } ∧
    ((∀ j, j < 1 → (fun i => decide (1 ≤ i)) j = false) ∧
      (1 : Nat) ≤ (ProviderRun.mk ["He", "llo"] .normal).fragments.length ∧
      streamPromptToTransport (ProviderRun.mk ["He", "llo"] .normal)
          (fun i => decide (1 ≤ i)) =
        [TransportAction.send (.data "He"), TransportAction.send .done]) := by
  intro old st0 stE
  have h1 := C4_stop_semantics.1 st0 (some "abc") old 2 (by decide) rfl
  have h2 := C4_stop_semantics.2.1 stE none
    (fun session hs => Option.noConfusion hs)
  have h3 := C4_stop_semantics.2.2.1 st0 (some "abc")
  have hbefore : ∀ j, j < 1 → (fun i => decide (1 ≤ i)) j = false := by
    intro j hj
    have : j = 0 := by omega
    subst this
    decide
  have h4 := C4_stop_semantics.2.2.2 (ProviderRun.mk ["He", "llo"] .normal)
    (fun i => decide (1 ≤ i)) 1 hbefore
    (by intro j hj; simpa using hj) (by decide)
  exact ⟨⟨by decide, rfl, h1.1, h1.2.2.1, h1.2.2.2.2.1⟩,
    ⟨fun session hs => Option.noConfusion hs, h2⟩, h3,
    ⟨hbefore, by decide, h4⟩⟩

/-- C6 counterexample: a request whose socket reports no peer address —
whose peer address therefore is not a loopback address — is *not*
rejected by the middleware: `!remote` makes it count as local and it
passes through to the routes. -/
theorem C6_counterexample :
    loopbackAddressSpec none = false ∧ localOnlyMiddleware none = none :=
  ⟨rfl, rfl⟩

/-- C6 (amended): every request that reports a peer address which is not
a loopback address (v4 `127.0.0.1`, v6 `::1`, or v4-mapped
`::ffff:127.0.0.1`) is rejected with a 403 before any route handler
runs; a request reporting no peer address is treated as local. -/
theorem C6_local_only_gate (st : ServerState) (r : String)
    (route : ServerState → ServerState × Nat)
    (hr : loopbackAddressSpec (some r) = false) :
    localOnlyMiddleware (some r) = some 403 ∧
    handleWithGate (some r) route st = (st, 403) := by
  have hb : (r = "127.0.0.1" || r = "::1" || r = "::ffff:127.0.0.1") = false := by
    simpa [loopbackAddressSpec] using hr
  constructor
  · simp [localOnlyMiddleware, hb]
  · simp [handleWithGate, localOnlyMiddleware, hb]

/-- C6 witness: a LAN peer `192.168.1.7` is turned away with 403 and its
request never reaches the route handler. -/
theorem C6_local_only_gate_witness :
    let stE : ServerState :=
      { mode := TransportMode.sse,
        sessions := fun _ => none,
        sinks := fun _ => newSseSink,
        timers := fun _ => false,
        cancelled := fun _ => false,
        disposed := fun _ => false,
        nextId := 0 }
    loopbackAddressSpec (some "192.168.1.7") = false ∧
    handleWithGate (some "192.168.1.7") (fun s => (s, 200)) stE =
      (stE, 403) := by
  intro stE
  exact ⟨by decide,
    (C6_local_only_gate stE "192.168.1.7" (fun s => (s, 200)) (by decide)).2⟩

/-- C7: in websocket mode, `GET /chat/stream` answers a structured 400
and registers nothing; in sse mode, a `/chat/ws` connection receives
exactly one `\x7berror, done:true\x7d` frame, the socket is closed
immediately, and no session is registered. -/
theorem C7_inactive_mode_rejection :
    (∀ (st : ServerState) (raw : Option String),
      st.mode = TransportMode.websocket →
      getChatStream st raw = { status := some 400, state := st }) ∧
    (∀ (st : ServerState) (socket : WsSocket) (raw : Option String),
      st.mode = TransportMode.sse →
      socket.readyState = WsReadyState.OPEN →
      (wsChatHandler st socket raw).state = st ∧
      (wsChatHandler st socket raw).socket.sent =
        socket.sent ++ [wsDisabledFrame] ∧
      (wsChatHandler st socket raw).socket.readyState = WsReadyState.CLOSING) := by
  constructor
  · intro st raw hmode
    have hm : st.mode ≠ TransportMode.sse := by
      rw [hmode]
      simp
    simp [getChatStream, hm]
  · intro st socket raw hmode hr
    have hm : ¬ st.mode ≠ TransportMode.websocket → False := by
      intro hc
      rw [hmode] at hc
      simp at hc
    have hm' : st.mode ≠ TransportMode.websocket := by
      rw [hmode]
      simp
    refine ⟨?_, ?_, ?_⟩ <;>
      simp [wsChatHandler, hm', WebSocketTransport.send,
        WebSocketTransport.close, hr]

/-- C7 witness: a websocket-mode server answers 400 on the SSE endpoint
leaving the registry empty; an sse-mode server answers an OPEN socket on
`/chat/ws` with the single error frame and closes it. -/
theorem C7_inactive_mode_rejection_witness :
    let stW : ServerState :=
      { mode := TransportMode.websocket,
        sessions := fun _ => none,
        sinks := fun _ => newSseSink,
        timers := fun _ => false,
        cancelled := fun _ => false,
        disposed := fun _ => false,
        nextId := 0 }
    let stE : ServerState :=
      { mode := TransportMode.sse,
        sessions := fun _ => none,
        sinks := fun _ => newSseSink,
        timers := fun _ => false,
        cancelled := fun _ => false,
        disposed := fun _ => false,
        nextId := 0 }
    (stW.mode = TransportMode.websocket ∧
      getChatStream stW (some "abc") = { status := some 400, state := stW }) ∧
    (stE.mode = TransportMode.sse ∧
      (WsSocket.mk WsReadyState.OPEN []).readyState = WsReadyState.OPEN ∧
      (wsChatHandler stE (WsSocket.mk WsReadyState.OPEN []) (some "abc")).state =
        stE ∧
      (wsChatHandler stE (WsSocket.mk WsReadyState.OPEN []) (some "abc")).socket.sent =
        [wsDisabledFrame] ∧
      (wsChatHandler stE (WsSocket.mk WsReadyState.OPEN []) (some "abc")).socket.readyState =
        WsReadyState.CLOSING) := by
  intro stW stE
  have h1 := C7_inactive_mode_rejection.1 stW (some "abc") rfl
  have h2 := C7_inactive_mode_rejection.2 stE (WsSocket.mk WsReadyState.OPEN [])
    (some "abc") rfl rfl
  exact ⟨⟨rfl, h1⟩, ⟨rfl, rfl, h2.1, h2.2.1, h2.2.2⟩⟩

/-- C10: the generation driver never calls `close` on its transport;
when a generation settles, the `.finally` handler keeps the session (and
its sink, timer and cancellation flags) intact in the registry and only
clears the session's cancellation handle, and only when the settled
handle is still the current one; consequently a further prompt on the
same client is accepted (202, driver started) over the same connection. -/
theorem C10_generation_teardown_frame :
    (∀ (run : ProviderRun) (cancelled : Nat → Bool),
      TransportAction.close ∉ streamPromptToTransport run cancelled) ∧
    (∀ (st : ServerState) (cid : String) (sid h : Nat)
      (session : ClientSession),
      st.sessions cid = some session →
      session.sid = sid →
      (chatFinally st cid sid h).sessions cid =
        some { session with
          cancellation := if session.cancellation = some h then none
            else session.cancellation } ∧
      (chatFinally st cid sid h).sinks = st.sinks ∧
      (chatFinally st cid sid h).timers = st.timers ∧
      (chatFinally st cid sid h).cancelled = st.cancelled) ∧
    (∀ (st : ServerState) (cid : String) (sid h : Nat)
      (session : ClientSession) (body : ChatBody),
      st.sessions cid = some session →
      session.sid = sid →
      jsTrim (body.prompt.getD "") ≠ "" →
      parseClientId body.clientId = cid →
      ChatEvt.responded 202 ∈ (postChat (chatFinally st cid sid h) body).events ∧
      ∃ h2, ChatEvt.startedDriver cid h2 ∈
        (postChat (chatFinally st cid sid h) body).events) := by
  refine ⟨?_, ?_, ?_⟩
  · intro run cancelled hmem
    obtain ⟨ds, t, ht, heq⟩ :=
      driverLoop_shape cancelled run.fragments 0 run.ending
    rw [streamPromptToTransport, heq] at hmem
    simp [List.mem_append, List.mem_map] at hmem
  · intro st cid sid h session hs hsid
    obtain ⟨ssid, ssink, scanc, stimer⟩ := session
    have hsid' : ssid = sid := hsid
    subst hsid'
    by_cases hc : scanc = some h
    · subst hc
      refine ⟨?_, ?_, ?_, ?_⟩ <;>
        simp [chatFinally, hs, markDisposed, updFn]
    · refine ⟨?_, ?_, ?_, ?_⟩ <;>
        simp [chatFinally, hs, hc, markDisposed, updFn]
  · intro st cid sid h session body hs hsid hp hcid
    have key : ∀ (st' : ServerState) (s' : ClientSession),
        st'.sessions (parseClientId body.clientId) = some s' →
        ChatEvt.responded 202 ∈ (postChat st' body).events ∧
        ∃ h2, ChatEvt.startedDriver cid h2 ∈ (postChat st' body).events := by
      intro st' s' hs'
      rw [hcid] at hs'
      cases hcc : s'.cancellation with
      | none =>
          refine ⟨?_, ⟨st'.nextId, ?_⟩⟩ <;>
            simp [postChat, hp, hs', hcc, hcid]
      | some h0 =>
          refine ⟨?_, ⟨st'.nextId, ?_⟩⟩ <;>
            simp [postChat, hp, hs', hcc, hcid, markCancelled, markDisposed]
    by_cases hc : session.cancellation = some h
    · have hs' : (chatFinally st cid sid h).sessions (parseClientId body.clientId) =
          some { session with cancellation := none } := by
        rw [hcid]
        simp [chatFinally, hs, hsid, hc, markDisposed, updFn]
      exact key _ _ hs'
    · have hstep : chatFinally st cid sid h = st := by
        simp [chatFinally, hs, hsid, hc]
      have hs2 : (chatFinally st cid sid h).sessions (parseClientId body.clientId) =
          some session := by
        rw [hstep, hcid]
        exact hs
      exact key _ _ hs2

/-- C10 witness: after a generation on handle 2 settles for client
`"abc"`, the session survives with only its handle cleared, the sink
store is untouched, and a follow-up `"hi"` prompt on the same stream is
answered 202 with a new driver started. -/
theorem C10_generation_teardown_frame_witness :
    let old : ClientSession :=
      { sid := 0, sinkId := 1, cancellation := some 2, keepAliveTimer := some 3 }
    let st0 : ServerState :=
      { mode := TransportMode.sse,
        sessions := fun cid => if cid = "abc" then some old else none,
        sinks := fun _ => newSseSink,
        timers := fun t => decide (t = 3),
        cancelled := fun _ => false,
        disposed := fun _ => false,
        nextId := 4 }
    (st0.sessions "abc" = some old ∧ old.sid = 0 ∧
      (chatFinally st0 "abc" 0 2).sessions "abc" =
        some { old with
          cancellation := if old.cancellation = some 2 then none
            else old.cancellation } ∧
      (chatFinally st0 "abc" 0 2).sinks = st0.sinks) ∧
    (jsTrim ((ChatBody.mk (some "hi") none (some "abc")).prompt.getD "") ≠ "" ∧
      parseClientId (ChatBody.mk (some "hi") none (some "abc")).clientId =
        "abc" ∧
      ChatEvt.responded 202 ∈
        (postChat (chatFinally st0 "abc" 0 2)
          (ChatBody.mk (some "hi") none (some "abc"))).events ∧
      ∃ h2, ChatEvt.startedDriver "abc" h2 ∈
        (postChat (chatFinally st0 "abc" 0 2)
          (ChatBody.mk (some "hi") none (some "abc"))).events) := by
  intro old st0
  have h2 := C10_generation_teardown_frame.2.1 st0 "abc" 0 2 old (by decide) rfl
  have h3 := C10_generation_teardown_frame.2.2 st0 "abc" 0 2 old
    (ChatBody.mk (some "hi") none (some "abc")) (by decide) rfl
    (by decide) (by decide)
  exact ⟨⟨by decide, rfl, h2.1, h2.2.1⟩, ⟨by decide, by decide, h3.1, h3.2⟩⟩

end LocalAiBridge
